import Mathlib

/-!
# Verification of the terminal plugin core (Rust sources under `src/rust/src`)

Shallow embedding of the data model and operations of the multi-session
terminal emulation engine: `types.rs`, `terminal.rs`, `pty.rs`, `theme.rs`,
`session.rs`.  The external `vt100` parser library is abstracted as a state
type `VtParser` together with a bundle `VtOps` of its two mutating entry
points (`process`, `set_size`), which every theorem quantifies over; the
OS-level outcomes of PTY calls (spawn/write/resize success or failure) are
abstracted as explicit flags and parameters of the `Pty` state.
-/

namespace TermPlugin

/-- Rust `types.rs`: terminal dimensions (`Size`). -/
structure Size where
  cols : Nat
  rows : Nat
deriving DecidableEq, Repr

/-- Rust `types.rs`: cursor position (`CursorPosition`). -/
structure CursorPosition where
  row : Nat
  col : Nat
deriving DecidableEq, Repr

/-- Rust `types.rs`: cursor shape variants (`CursorShape`). -/
inductive CursorShape where
  | Block
  | Underline
  | Bar
deriving DecidableEq, Repr

/-- Rust `types.rs`: cursor state (`Cursor`). -/
structure Cursor where
  position : CursorPosition
  visible : Bool
  shape : CursorShape
deriving DecidableEq, Repr

/-- Rust `types.rs`: RGB color (`Color`); u8 channels modelled as `Nat`
(all values produced stay below 256, no overflow occurs). -/
structure Color where
  r : Nat
  g : Nat
  b : Nat
deriving DecidableEq, Repr

/-- Rust `Color::new`. -/
def Color.new (r g b : Nat) : Color := ⟨r, g, b⟩

/-- Rust `types.rs`: cell attributes (`CellAttributes`). -/
structure CellAttributes where
  bold : Bool
  italic : Bool
  underline : Bool
  strikethrough : Bool
  inverse : Bool
  dim : Bool
  blink : Bool
deriving DecidableEq, Repr

/-- Rust `types.rs`: a single terminal cell (`Cell`). -/
structure Cell where
  char : String
  fg : Color
  bg : Color
  attrs : CellAttributes
deriving DecidableEq, Repr

/-- Rust `CellAttributes::default` (all false). -/
def CellAttributes.default : CellAttributes :=
  ⟨false, false, false, false, false, false, false⟩

/-- Rust `Cell::default`: space, white on black, no attributes. -/
def Cell.default : Cell :=
  { char := " ", fg := Color.new 255 255 255, bg := Color.new 0 0 0,
    attrs := CellAttributes.default }

/-- Rust `types.rs`: a change to a single cell (`CellChange`). -/
structure CellChange where
  row : Nat
  col : Nat
  cell : Cell
deriving DecidableEq, Repr

/-- Rust `types.rs`: incremental screen update (`ScreenUpdate`). -/
structure ScreenUpdate where
  session_id : String
  changes : List CellChange
  cursor : Cursor
  title : Option String
deriving DecidableEq, Repr

/-- Rust `types.rs`: the entire screen buffer (`Screen`); `Row = Vec<Cell>`. -/
structure Screen where
  cells : List (List Cell)
  cursor : Cursor
  size : Size
  scrollback_len : Nat
  title : String
deriving DecidableEq, Repr

/-- Rust `types.rs`: mark types (`MarkType`). -/
inductive MarkType where
  | PromptStart
  | CommandStart
  | CommandEnd
deriving DecidableEq, Repr

/-- Rust `types.rs`: shell integration mark (`Mark`). -/
structure Mark where
  row : Nat
  timestamp : Nat
  mark_type : MarkType
  command : Option String
  exit_code : Option Int
deriving DecidableEq, Repr

/-- Rust `error.rs`: the plugin error enum (`Error`). -/
inductive Error where
  | SessionNotFound (id : String)
  | SessionAlreadyExists (id : String)
  | PtyError (detail : String)
  | TerminalError (detail : String)
  | InvalidConfig (detail : String)
  | IoError (detail : String)
  | SessionClosed
  | LockPoisoned
deriving DecidableEq, Repr

/-- Rust `types.rs` `idx_to_color`: convert a 256-color index (u8) to RGB. -/
def idx_to_color (idx : Nat) : Color :=
  if idx = 0 then Color.new 0 0 0
  else if idx = 1 then Color.new 205 49 49
  else if idx = 2 then Color.new 13 188 121
  else if idx = 3 then Color.new 229 229 16
  else if idx = 4 then Color.new 36 114 200
  else if idx = 5 then Color.new 188 63 188
  else if idx = 6 then Color.new 17 168 205
  else if idx = 7 then Color.new 229 229 229
  else if idx = 8 then Color.new 102 102 102
  else if idx = 9 then Color.new 241 76 76
  else if idx = 10 then Color.new 35 209 139
  else if idx = 11 then Color.new 245 245 67
  else if idx = 12 then Color.new 59 142 234
  else if idx = 13 then Color.new 214 112 214
  else if idx = 14 then Color.new 41 184 219
  else if idx = 15 then Color.new 255 255 255
  else if idx ≤ 231 then
    -- 216 color cube (16-231)
    let n := idx - 16
    Color.new ((n / 36) % 6 * 51) ((n / 6) % 6 * 51) (n % 6 * 51)
  else
    -- Grayscale (232-255)
    let gray := (idx - 232) * 10 + 8
    Color.new gray gray gray

/-- Abstraction of `vt100::Color`. -/
inductive VtColor where
  | default
  | idx (i : Nat)
  | rgb (r g b : Nat)
deriving DecidableEq, Repr

/-- Abstraction of `vt100::Cell`: the accessors the plugin code reads. -/
structure VtCell where
  contents : String
  fgcolor : VtColor
  bgcolor : VtColor
  bold : Bool
  italic : Bool
  underline : Bool
  inverse : Bool
deriving DecidableEq, Repr

/-- A blank vt100 cell. -/
def VtCell.default : VtCell :=
  ⟨"", VtColor.default, VtColor.default, false, false, false, false⟩

/-- Abstraction of `vt100::Screen`: the accessors the plugin code reads. -/
structure VtScreen where
  contents : String
  title : String
  cells : List (List VtCell)
  cursor_row : Nat
  cursor_col : Nat
  hide_cursor : Bool
  scrollback : Nat
deriving DecidableEq, Repr

/-- Rust `vt100::Screen::cell(row, col)`: `some` on an in-bounds cell. -/
def VtScreen.cell (s : VtScreen) (row col : Nat) : Option VtCell :=
  s.cells[row]?.bind fun r => r[col]?

/-- Abstraction of `vt100::Parser`: its screen plus opaque parse state. -/
structure VtParser where
  screen : VtScreen
  internal : List Nat
deriving DecidableEq, Repr

/-- The two mutating vt100 entry points the plugin calls; every theorem
about `Terminal`/`Session` quantifies over this bundle, so nothing is
assumed about the vt100 library's behavior. -/
structure VtOps where
  process : VtParser → List Nat → VtParser
  set_size : VtParser → Nat → Nat → VtParser

/-- Rust `Color::from_vt100`. -/
def Color.from_vt100 (c : VtColor) (dflt : Color) : Color :=
  match c with
  | VtColor.default => dflt
  | VtColor.idx i => idx_to_color i
  | VtColor.rgb r g b => Color.new r g b

/-- Rust `CellAttributes::from_vt100_cell`. -/
def CellAttributes.from_vt100_cell (cell : VtCell) : CellAttributes :=
  { bold := cell.bold
    italic := cell.italic
    underline := cell.underline
    strikethrough := false
    inverse := cell.inverse
    dim := false
    blink := false }

/-- Rust `Terminal::convert_cell` (the method does not read `self`). -/
def convert_cell (cell : VtCell) : Cell :=
  { char := cell.contents
    fg := Color.from_vt100 cell.fgcolor (Color.new 255 255 255)
    bg := Color.from_vt100 cell.bgcolor (Color.new 0 0 0)
    attrs := CellAttributes.from_vt100_cell cell }

/-- Rust `Terminal::get_cursor_from_screen`. -/
def get_cursor_from_screen (screen : VtScreen) : Cursor :=
  { position := { row := screen.cursor_row, col := screen.cursor_col }
    visible := !screen.hide_cursor
    shape := CursorShape.Block }

/-- Rust `terminal.rs`: the terminal emulator state (`Terminal`).  The
`Arc<Mutex<..>>` wrappers of the Rust struct are ownership plumbing with no
observable effect on the sequential semantics and are dropped. -/
structure Terminal where
  parser : VtParser
  size : Size
  title : String
  prev_contents : Option String
deriving DecidableEq, Repr

/-- The blank vt100 screen a fresh parser starts with. -/
def VtScreen.init (rows cols : Nat) : VtScreen :=
  { contents := ""
    title := ""
    cells := List.replicate rows (List.replicate cols VtCell.default)
    cursor_row := 0
    cursor_col := 0
    hide_cursor := false
    scrollback := 0 }

/-- A fresh `vt100::Parser::new(rows, cols, 10000)`. -/
def VtParser.init (rows cols : Nat) : VtParser :=
  { screen := VtScreen.init rows cols, internal := [] }

/-- Rust `Terminal::new(cols, rows)`. -/
def Terminal.new (cols rows : Nat) : Terminal :=
  { parser := VtParser.init rows cols
    size := { cols := cols, rows := rows }
    title := ""
    prev_contents := none }

/-- Rust `Terminal::compute_changes`: walk the visible grid row-major and record
a `CellChange` for every coordinate at which `screen.cell` yields a cell. -/
def Terminal.compute_changes (size : Size) (screen : VtScreen) : List CellChange :=
  (List.range size.rows).flatMap fun row =>
    (List.range size.cols).filterMap fun col =>
      (screen.cell row col).map fun c =>
        { row := row, col := col, cell := convert_cell c }

/-- Rust `Terminal::process`: feed bytes to the vt100 parser, keep the stored
title unless the screen reports an empty one, and diff the screen contents
against the previous fingerprint; on a difference produce the change list,
otherwise none.  Returns the updated terminal and the changes. -/
def Terminal.process (vt : VtOps) (t : Terminal) (data : List Nat) :
    Terminal × List CellChange :=
  let parser := vt.process t.parser data
  let screen := parser.screen
  let title := if screen.title.isEmpty then t.title else screen.title
  let current := screen.contents
  let changes :=
    if t.prev_contents ≠ some current then Terminal.compute_changes t.size screen
    else []
  ({ t with parser := parser, title := title, prev_contents := some current },
   changes)

/-- Rust `Terminal::cell_at`. -/
def Terminal.cell_at (screen : VtScreen) (row col : Nat) : Cell :=
  match screen.cell row col with
  | some c => convert_cell c
  | none => Cell.default

/-- Rust `Terminal::get_screen`. -/
def Terminal.get_screen (t : Terminal) : Screen :=
  let screen := t.parser.screen
  { cells :=
      (List.range t.size.rows).map fun row =>
        (List.range t.size.cols).map fun col => Terminal.cell_at screen row col
    cursor := get_cursor_from_screen screen
    size := t.size
    scrollback_len := screen.scrollback
    title := screen.title }

/-- Rust `Terminal::resize`: replace the stored size, forward to the parser's
`set_size`, and clear the previous-contents cache to force a full refresh. -/
def Terminal.resize (vt : VtOps) (t : Terminal) (cols rows : Nat) : Terminal :=
  { t with
      size := { cols := cols, rows := rows }
      parser := vt.set_size t.parser rows cols
      prev_contents := none }

/-- Rust `Terminal::get_cursor`. -/
def Terminal.get_cursor (t : Terminal) : Cursor :=
  get_cursor_from_screen t.parser.screen

/-- Rust `Terminal::check_bell`: stubbed to `false` in the source (vt100 0.15
does not expose the audible bell). -/
def Terminal.check_bell (_t : Terminal) : Bool :=
  false

/-- Rust `theme.rs`: a terminal color theme (`Theme`). -/
structure Theme where
  name : String
  foreground : Color
  background : Color
  cursor : Color
  cursor_text : Color
  selection : Color
  selection_text : Color
  black : Color
  red : Color
  green : Color
  yellow : Color
  blue : Color
  magenta : Color
  cyan : Color
  white : Color
  bright_black : Color
  bright_red : Color
  bright_green : Color
  bright_yellow : Color
  bright_blue : Color
  bright_magenta : Color
  bright_cyan : Color
  bright_white : Color
deriving DecidableEq, Repr

/-- Rust `theme.rs` `DARK`. -/
def DARK : Theme :=
  { name := ""
    foreground := Color.new 229 229 229
    background := Color.new 24 24 27
    cursor := Color.new 255 255 255
    cursor_text := Color.new 0 0 0
    selection := Color.new 68 68 76
    selection_text := Color.new 255 255 255
    black := Color.new 0 0 0
    red := Color.new 205 49 49
    green := Color.new 13 188 121
    yellow := Color.new 229 229 16
    blue := Color.new 36 114 200
    magenta := Color.new 188 63 188
    cyan := Color.new 17 168 205
    white := Color.new 229 229 229
    bright_black := Color.new 102 102 102
    bright_red := Color.new 241 76 76
    bright_green := Color.new 35 209 139
    bright_yellow := Color.new 245 245 67
    bright_blue := Color.new 59 142 234
    bright_magenta := Color.new 214 112 214
    bright_cyan := Color.new 41 184 219
    bright_white := Color.new 255 255 255 }

/-- Rust `theme.rs` `LIGHT`. -/
def LIGHT : Theme :=
  { name := ""
    foreground := Color.new 0 0 0
    background := Color.new 255 255 255
    cursor := Color.new 0 0 0
    cursor_text := Color.new 255 255 255
    selection := Color.new 178 215 255
    selection_text := Color.new 0 0 0
    black := Color.new 0 0 0
    red := Color.new 205 49 49
    green := Color.new 0 128 0
    yellow := Color.new 128 128 0
    blue := Color.new 0 0 255
    magenta := Color.new 128 0 128
    cyan := Color.new 0 128 128
    white := Color.new 192 192 192
    bright_black := Color.new 128 128 128
    bright_red := Color.new 255 0 0
    bright_green := Color.new 0 255 0
    bright_yellow := Color.new 255 255 0
    bright_blue := Color.new 0 0 255
    bright_magenta := Color.new 255 0 255
    bright_cyan := Color.new 0 255 255
    bright_white := Color.new 255 255 255 }

/-- Rust `theme.rs` `SOLARIZED_DARK`. -/
def SOLARIZED_DARK : Theme :=
  { name := ""
    foreground := Color.new 131 148 150
    background := Color.new 0 43 54
    cursor := Color.new 131 148 150
    cursor_text := Color.new 0 43 54
    selection := Color.new 7 54 66
    selection_text := Color.new 131 148 150
    black := Color.new 7 54 66
    red := Color.new 220 50 47
    green := Color.new 133 153 0
    yellow := Color.new 181 137 0
    blue := Color.new 38 139 210
    magenta := Color.new 211 54 130
    cyan := Color.new 42 161 152
    white := Color.new 238 232 213
    bright_black := Color.new 0 43 54
    bright_red := Color.new 203 75 22
    bright_green := Color.new 88 110 117
    bright_yellow := Color.new 101 123 131
    bright_blue := Color.new 131 148 150
    bright_magenta := Color.new 108 113 196
    bright_cyan := Color.new 147 161 161
    bright_white := Color.new 253 246 227 }

/-- Rust `theme.rs` `DRACULA`. -/
def DRACULA : Theme :=
  { name := ""
    foreground := Color.new 248 248 242
    background := Color.new 40 42 54
    cursor := Color.new 248 248 242
    cursor_text := Color.new 40 42 54
    selection := Color.new 68 71 90
    selection_text := Color.new 248 248 242
    black := Color.new 33 34 44
    red := Color.new 255 85 85
    green := Color.new 80 250 123
    yellow := Color.new 241 250 140
    blue := Color.new 98 114 164
    magenta := Color.new 255 121 198
    cyan := Color.new 139 233 253
    white := Color.new 248 248 242
    bright_black := Color.new 98 114 164
    bright_red := Color.new 255 110 103
    bright_green := Color.new 90 247 142
    bright_yellow := Color.new 244 249 157
    bright_blue := Color.new 119 136 189
    bright_magenta := Color.new 255 146 208
    bright_cyan := Color.new 154 237 254
    bright_white := Color.new 255 255 255 }

/-- Rust `theme.rs` `NORD`. -/
def NORD : Theme :=
  { name := ""
    foreground := Color.new 216 222 233
    background := Color.new 46 52 64
    cursor := Color.new 216 222 233
    cursor_text := Color.new 46 52 64
    selection := Color.new 67 76 94
    selection_text := Color.new 216 222 233
    black := Color.new 59 66 82
    red := Color.new 191 97 106
    green := Color.new 163 190 140
    yellow := Color.new 235 203 139
    blue := Color.new 129 161 193
    magenta := Color.new 180 142 173
    cyan := Color.new 136 192 208
    white := Color.new 229 233 240
    bright_black := Color.new 76 86 106
    bright_red := Color.new 191 97 106
    bright_green := Color.new 163 190 140
    bright_yellow := Color.new 235 203 139
    bright_blue := Color.new 129 161 193
    bright_magenta := Color.new 180 142 173
    bright_cyan := Color.new 143 188 187
    bright_white := Color.new 236 239 244 }

/-- Rust `theme.rs` `ONE_DARK`. -/
def ONE_DARK : Theme :=
  { name := ""
    foreground := Color.new 171 178 191
    background := Color.new 40 44 52
    cursor := Color.new 82 139 255
    cursor_text := Color.new 40 44 52
    selection := Color.new 62 68 81
    selection_text := Color.new 171 178 191
    black := Color.new 40 44 52
    red := Color.new 224 108 117
    green := Color.new 152 195 121
    yellow := Color.new 229 192 123
    blue := Color.new 97 175 239
    magenta := Color.new 198 120 221
    cyan := Color.new 86 182 194
    white := Color.new 171 178 191
    bright_black := Color.new 92 99 112
    bright_red := Color.new 224 108 117
    bright_green := Color.new 152 195 121
    bright_yellow := Color.new 229 192 123
    bright_blue := Color.new 97 175 239
    bright_magenta := Color.new 198 120 221
    bright_cyan := Color.new 86 182 194
    bright_white := Color.new 255 255 255 }

/-- Rust `theme.rs` `THEMES`: the global theme table. -/
def THEMES : List (String × Theme) :=
  [("dark", DARK), ("light", LIGHT), ("solarized-dark", SOLARIZED_DARK),
   ("dracula", DRACULA), ("nord", NORD), ("one-dark", ONE_DARK)]

/-- Rust `Theme::by_name`: look up a theme and stamp its name. -/
def Theme.by_name (name : String) : Option Theme :=
  (THEMES.find? fun nt => nt.1 == name).map fun nt => { nt.2 with name := nt.1 }

/-- Rust `Theme::default` (`DARK.clone()`, name left empty). -/
def Theme.default : Theme := DARK

/-- Rust `pty.rs`: a running PTY process (`Pty`).  The OS side is abstracted:
`buffer` is the queue the background reader has filled (one entry per
chunk, popped by `try_read`), `alive` the flag that reader maintains,
`write_ok`/`resize_ok` whether the next OS-level write/resize call
succeeds, and `written` the bytes forwarded to the child so far. -/
structure Pty where
  size : Size
  alive : Bool
  buffer : List (List Nat)
  write_ok : Bool
  resize_ok : Bool
  written : List Nat
deriving DecidableEq, Repr

/-- Rust `Pty::write`: forward bytes to the child, `PtyError` on OS failure. -/
def Pty.write (p : Pty) (data : List Nat) : Except Error Pty :=
  if p.write_ok then Except.ok { p with written := p.written ++ data }
  else Except.error (Error.PtyError "write")

/-- Rust `Pty::resize`: update the OS pty window size, `PtyError` on failure;
no effect on buffered-but-unread output. -/
def Pty.resize (p : Pty) (cols rows : Nat) : Except Error Pty :=
  if p.resize_ok then Except.ok { p with size := { cols := cols, rows := rows } }
  else Except.error (Error.PtyError "resize")

/-- Rust `Pty::try_read`: pop the next buffered chunk, if any; never blocks. -/
def Pty.try_read (p : Pty) : Option (List Nat) × Pty :=
  match p.buffer with
  | [] => (none, p)
  | d :: rest => (some d, { p with buffer := rest })

/-- Rust `Pty::is_alive`. -/
def Pty.is_alive (p : Pty) : Bool :=
  p.alive

/-- Rust `Pty::kill`: mark dead. -/
def Pty.kill (p : Pty) : Pty :=
  { p with alive := false }

/-- Rust `events.rs`: the events the modelled operations emit
(`TerminalEvent`; constructors unused by the modelled code paths are
omitted).  Operations return the list of events they push onto the
channel. -/
inductive TerminalEvent where
  | SessionCreated (session_id : String)
  | SessionDestroyed (session_id : String)
  | TerminalResized (session_id : String) (cols rows : Nat)
  | ScreenUpdate (update : TermPlugin.ScreenUpdate)
  | Bell (session_id : String)
  | Mark (session_id : String) (mark : TermPlugin.Mark)
  | ProcessExit (session_id : String) (exit_code : Option Int)
deriving DecidableEq, Repr

/-- Rust `session.rs`: session creation configuration (`SessionConfig`). -/
structure SessionConfig where
  id : Option String
  cwd : Option String
  shell : Option String
  env : List (String × String)
  cols : Option Nat
  rows : Option Nat
  theme : Option String
deriving DecidableEq, Repr

/-- Rust `SessionConfig::default`. -/
def SessionConfig.default : SessionConfig :=
  { id := none, cwd := none, shell := none, env := []
    cols := some 80, rows := some 24, theme := none }

/-- Rust `session.rs`: a terminal session (`Session`).  The cloned event-sender
handle is modelled by returning emitted events from each operation. -/
structure Session where
  id : String
  terminal : Terminal
  pty : Pty
  theme : Theme
  config : SessionConfig
  created_at : Nat
  marks : List Mark
deriving DecidableEq, Repr

/-- Rust `Session::new`: `fresh` stands for the generated UUID, `now` for the
wall clock, and `spawn_result` for the OS outcome of `Pty::spawn` with the
derived `PtyConfig` (an `Error` or the spawned `Pty` state). -/
def Session.new (config : SessionConfig) (fresh : String) (now : Nat)
    (spawn_result : Except Error Pty) : Except Error Session :=
  let id := config.id.getD fresh
  let cols := config.cols.getD 80
  let rows := config.rows.getD 24
  let terminal := Terminal.new cols rows
  match spawn_result with
  | Except.error e => Except.error e
  | Except.ok pty =>
    let theme := (config.theme.bind Theme.by_name).getD Theme.default
    Except.ok
      { id := id, terminal := terminal, pty := pty, theme := theme,
        config := config, created_at := now, marks := [] }

/-- Rust `session.rs`: read-only session projection (`SessionInfo`). -/
structure SessionInfo where
  id : String
  cwd : Option String
  shell : Option String
  title : String
  size : Size
  is_alive : Bool
  created_at : Nat
deriving DecidableEq, Repr

/-- Rust `Session::info`. -/
def Session.info (s : Session) : SessionInfo :=
  { id := s.id
    cwd := s.config.cwd
    shell := s.config.shell
    title := s.terminal.title
    size := s.terminal.size
    is_alive := s.pty.is_alive
    created_at := s.created_at }

/-- Rust `Session::write`: forward to the PTY; the session state changes only
through the PTY write log. -/
def Session.write (s : Session) (data : List Nat) : Session × Except Error Unit :=
  match s.pty.write data with
  | Except.ok p => ({ s with pty := p }, Except.ok ())
  | Except.error e => (s, Except.error e)

/-- Rust `Session::resize`: resize the emulator first, then the PTY (the `?`
operator aborts before the event on PTY failure, keeping the already
mutated emulator), then emit `TerminalResized`. -/
def Session.resize (vt : VtOps) (s : Session) (cols rows : Nat) :
    Session × List TerminalEvent × Except Error Unit :=
  let terminal := Terminal.resize vt s.terminal cols rows
  match s.pty.resize cols rows with
  | Except.error e => ({ s with terminal := terminal }, [], Except.error e)
  | Except.ok pty =>
    ({ s with terminal := terminal, pty := pty },
     [TerminalEvent.TerminalResized s.id cols rows], Except.ok ())

/-- Rust `Session::get_screen`. -/
def Session.get_screen (s : Session) : Screen :=
  s.terminal.get_screen

/-- Rust `Session::get_cursor`. -/
def Session.get_cursor (s : Session) : Cursor :=
  s.terminal.get_cursor

/-- Rust `Session::set_theme`. -/
def Session.set_theme (s : Session) (theme : Theme) : Session :=
  { s with theme := theme }

/-- Rust `Session::is_alive`. -/
def Session.is_alive (s : Session) : Bool :=
  s.pty.is_alive

/-- Rust `Session::process_output`: pull at most one buffered chunk, feed it to
the emulator, and on a non-empty change list build the `ScreenUpdate`
(cursor and title read back from the post-processing emulator), emit it,
check the bell, and also return it. -/
def Session.process_output (vt : VtOps) (s : Session) :
    Session × List TerminalEvent × Option ScreenUpdate :=
  match s.pty.try_read with
  | (none, pty) => ({ s with pty := pty }, [], none)
  | (some data, pty) =>
    let tc := Terminal.process vt s.terminal data
    let s' : Session := { s with pty := pty, terminal := tc.1 }
    if tc.2.isEmpty then (s', [], none)
    else
      let update : ScreenUpdate :=
        { session_id := s'.id
          changes := tc.2
          cursor := tc.1.get_cursor
          title := some tc.1.title }
      let events :=
        TerminalEvent.ScreenUpdate update ::
          (if tc.1.check_bell then [TerminalEvent.Bell s'.id] else [])
      (s', events, some update)

/-- Rust `Session::add_mark`. -/
def Session.add_mark (s : Session) (mark : Mark) : Session × List TerminalEvent :=
  ({ s with marks := s.marks ++ [mark] }, [TerminalEvent.Mark s.id mark])

/-- Rust `Session::kill`. -/
def Session.kill (s : Session) : Session :=
  { s with pty := s.pty.kill }

/-- Rust `session.rs`: the session registry (`SessionManager`).  The
`Arc<RwLock<HashMap>>` is modelled as an association list with unique keys
(the `HashMap` invariant); locking has no observable effect on the
sequential semantics of each operation. -/
structure SessionManager where
  sessions : List (String × Session)
deriving DecidableEq, Repr

/-- Rust `HashMap::contains_key`. -/
def SessionManager.contains_key (m : SessionManager) (id : String) : Bool :=
  (m.sessions.lookup id).isSome

/-- Rust `HashMap::remove`: the removed session, if any, and the rest. -/
def SessionManager.remove (m : SessionManager) (id : String) :
    Option Session × SessionManager :=
  match m.sessions.lookup id with
  | none => (none, m)
  | some s => (some s, { sessions := m.sessions.filter fun kv => kv.1 != id })

/-- In-place update of the session bound to `id` (a `get_mut` mutation). -/
def SessionManager.update (m : SessionManager) (id : String) (s : Session) :
    SessionManager :=
  { sessions := m.sessions.map fun kv => if kv.1 = id then (id, s) else kv }

/-- Rust `SessionManager::create`: check for a collision on the (explicit or
generated) id, construct the session, insert it, emit `SessionCreated`.
`fresh`, `now`, `spawn_result` parameterize UUID generation, the clock and
the OS spawn outcome, as in `Session.new`. -/
def SessionManager.create (m : SessionManager) (config : SessionConfig)
    (fresh : String) (now : Nat) (spawn_result : Except Error Pty) :
    SessionManager × List TerminalEvent × Except Error String :=
  let id := config.id.getD fresh
  if (m.sessions.lookup id).isSome then
    (m, [], Except.error (Error.SessionAlreadyExists id))
  else
    match Session.new { config with id := some id } fresh now spawn_result with
    | Except.error e => (m, [], Except.error e)
    | Except.ok session =>
      ({ sessions := m.sessions ++ [(id, session)] },
       [TerminalEvent.SessionCreated id], Except.ok id)

/-- Rust `SessionManager::destroy`. -/
def SessionManager.destroy (m : SessionManager) (id : String) :
    SessionManager × List TerminalEvent × Except Error Unit :=
  match m.remove id with
  | (some s, m') =>
    let _ := s.kill
    (m', [TerminalEvent.SessionDestroyed id], Except.ok ())
  | (none, _) => (m, [], Except.error (Error.SessionNotFound id))

/-- Rust `SessionManager::get_info`. -/
def SessionManager.get_info (m : SessionManager) (id : String) :
    Except Error SessionInfo :=
  match m.sessions.lookup id with
  | none => Except.error (Error.SessionNotFound id)
  | some s => Except.ok s.info

/-- Rust `SessionManager::list`. -/
def SessionManager.list (m : SessionManager) : List SessionInfo :=
  m.sessions.map fun kv => kv.2.info

/-- Rust `SessionManager::write`. -/
def SessionManager.write (m : SessionManager) (id : String) (data : List Nat) :
    SessionManager × List TerminalEvent × Except Error Unit :=
  match m.sessions.lookup id with
  | none => (m, [], Except.error (Error.SessionNotFound id))
  | some s =>
    let sr := s.write data
    (m.update id sr.1, [], sr.2)

/-- Rust `SessionManager::resize`. -/
def SessionManager.resize (vt : VtOps) (m : SessionManager) (id : String)
    (cols rows : Nat) : SessionManager × List TerminalEvent × Except Error Unit :=
  match m.sessions.lookup id with
  | none => (m, [], Except.error (Error.SessionNotFound id))
  | some s =>
    let r := Session.resize vt s cols rows
    (m.update id r.1, r.2.1, r.2.2)

/-- Rust `SessionManager::get_screen`. -/
def SessionManager.get_screen (m : SessionManager) (id : String) :
    Except Error Screen :=
  match m.sessions.lookup id with
  | none => Except.error (Error.SessionNotFound id)
  | some s => Except.ok s.get_screen

/-- Rust `SessionManager::process`. -/
def SessionManager.process (vt : VtOps) (m : SessionManager) (id : String) :
    SessionManager × List TerminalEvent × Except Error (Option ScreenUpdate) :=
  match m.sessions.lookup id with
  | none => (m, [], Except.error (Error.SessionNotFound id))
  | some s =>
    let r := Session.process_output vt s
    (m.update id r.1, r.2.1, Except.ok r.2.2)

/-- Rust `SessionManager::get_theme`. -/
def SessionManager.get_theme (m : SessionManager) (id : String) :
    Except Error Theme :=
  match m.sessions.lookup id with
  | none => Except.error (Error.SessionNotFound id)
  | some s => Except.ok s.theme

/-- Rust `SessionManager::set_theme`: resolve the theme name first
(`InvalidConfig` if unknown), only then look up the session. -/
def SessionManager.set_theme (m : SessionManager) (id : String)
    (theme_name : String) : SessionManager × List TerminalEvent × Except Error Unit :=
  match Theme.by_name theme_name with
  | none => (m, [], Except.error (Error.InvalidConfig ("Unknown theme: " ++ theme_name)))
  | some theme =>
    match m.sessions.lookup id with
    | none => (m, [], Except.error (Error.SessionNotFound id))
    | some s => (m.update id (s.set_theme theme), [], Except.ok ())

/-- Rust `SessionManager::count`. -/
def SessionManager.count (m : SessionManager) : Nat :=
  m.sessions.length

/-- Rust `SessionManager::cleanup_dead`: collect the ids whose PTY reports
death, remove each, and emit one `ProcessExit` (exit code untracked) per
successful removal; returns the collected ids as well. -/
def SessionManager.cleanup_dead (m : SessionManager) :
    SessionManager × List TerminalEvent × List String :=
  let dead := (m.sessions.filter fun kv => !kv.2.is_alive).map Prod.fst
  let r := dead.foldl
    (fun (acc : SessionManager × List TerminalEvent) id =>
      match acc.1.remove id with
      | (some _, m') => (m', acc.2 ++ [TerminalEvent.ProcessExit id none])
      | (none, _) => acc)
    (m, [])
  (r.1, r.2, dead)

/-- Spec-side contract of the diff (§4.3 of the spec): one `CellChange`
for every cell of the visible grid, enumerated row-major (rows `0..rows`,
cols `0..cols`), each carrying the cell currently at that coordinate. -/
def spec_full_frame (size : Size) (screen : VtScreen) : List CellChange :=
  (List.range size.rows).flatMap fun row =>
    (List.range size.cols).map fun col =>
      { row := row, col := col, cell := Terminal.cell_at screen row col }

/-- A concrete instantiation of the abstract vt100 interface used by
witnesses: processing appends one character per byte to the screen
contents and leaves everything else alone. -/
def toyStep (p : VtParser) (data : List Nat) : VtParser :=
  { screen := { p.screen with
      contents := p.screen.contents ++ String.mk (data.map fun _ => 'a') }
    internal := p.internal }

/-- Concrete `VtOps` bundle for witnesses. -/
def toyVt : VtOps :=
  { process := toyStep, set_size := fun p _ _ => p }

/-- A live concrete PTY with two buffered output chunks. -/
def pty0 : Pty :=
  { size := { cols := 1, rows := 1 }, alive := true, buffer := [[104], [105]]
    write_ok := true, resize_ok := true, written := [] }

/-- A live concrete session over a 1×1 grid with two buffered chunks. -/
def session0 : Session :=
  { id := "x", terminal := Terminal.new 1 1, pty := pty0
    theme := Theme.default, config := SessionConfig.default
    created_at := 0, marks := [] }

/-- A session whose PTY-level resize call fails. -/
def sessionBadPty : Session :=
  { session0 with pty := { pty0 with resize_ok := false } }

/-- A session whose PTY reports death. -/
def sessionDead : Session :=
  { session0 with id := "d", pty := { pty0 with alive := false, buffer := [] } }

/-- A registry holding one live and one dead session. -/
def mgr0 : SessionManager :=
  { sessions := [("x", session0), ("d", sessionDead)] }

/-- A session with exactly one buffered output chunk. -/
def sessionOneChunk : Session :=
  { session0 with pty := { pty0 with buffer := [[104]] } }

set_option maxRecDepth 4000 in
/-- C9: the 256-color palette resolution follows the 6×6×6 cube formula on
indices 16–231 and the 24-step grayscale ramp on indices 232–255. -/
theorem idx_to_color_formulas (i : Nat) :
    (16 ≤ i → i ≤ 231 →
      idx_to_color i =
        Color.new ((i - 16) / 36 % 6 * 51) ((i - 16) / 6 % 6 * 51)
          ((i - 16) % 6 * 51)) ∧
    (232 ≤ i → i ≤ 255 →
      idx_to_color i =
        Color.new ((i - 232) * 10 + 8) ((i - 232) * 10 + 8)
          ((i - 232) * 10 + 8)) := by
  constructor
  · intro h1 h2
    have hcube : ∀ j < 232, 16 ≤ j →
        idx_to_color j =
          Color.new ((j - 16) / 36 % 6 * 51) ((j - 16) / 6 % 6 * 51)
            ((j - 16) % 6 * 51) := by decide
    exact hcube i (Nat.lt_succ_of_le h2) h1
  · intro h1 h2
    have hgray : ∀ j < 256, 232 ≤ j →
        idx_to_color j =
          Color.new ((j - 232) * 10 + 8) ((j - 232) * 10 + 8)
            ((j - 232) * 10 + 8) := by decide
    exact hgray i (Nat.lt_succ_of_le h2) h1

/-- C9 witness: index 196 resolves by the cube formula to RGB(255,0,0) and
index 244 to RGB(128,128,128). -/
theorem idx_to_color_formulas_witness :
    idx_to_color 196 = Color.new 255 0 0 ∧
    idx_to_color 244 = Color.new 128 128 128 :=
  ⟨((idx_to_color_formulas 196).1 (by decide) (by decide)).trans (by decide),
   ((idx_to_color_formulas 244).2 (by decide) (by decide)).trans (by decide)⟩

/-- C3 (amended): against an id not bound to a live session, `write`,
`resize`, `get_screen`, `process` and `get_theme` fail with
`SessionNotFound` and leave the registry unchanged with no event;
`set_theme` does so too when the theme name is recognized, but fails with
`InvalidConfig` (still with no side effect) when it is not, because the
name is resolved before the session lookup. -/
theorem manager_ops_missing_id (vt : VtOps) (m : SessionManager) (id : String)
    (data : List Nat) (cols rows : Nat) (name : String)
    (h : m.sessions.lookup id = none) :
    SessionManager.write m id data = (m, [], Except.error (Error.SessionNotFound id)) ∧
    SessionManager.resize vt m id cols rows =
      (m, [], Except.error (Error.SessionNotFound id)) ∧
    SessionManager.get_screen m id = Except.error (Error.SessionNotFound id) ∧
    SessionManager.process vt m id = (m, [], Except.error (Error.SessionNotFound id)) ∧
    SessionManager.get_theme m id = Except.error (Error.SessionNotFound id) ∧
    ((Theme.by_name name).isSome = true →
      SessionManager.set_theme m id name =
        (m, [], Except.error (Error.SessionNotFound id))) ∧
    (Theme.by_name name = none →
      SessionManager.set_theme m id name =
        (m, [], Except.error (Error.InvalidConfig ("Unknown theme: " ++ name)))) := by
  refine ⟨?_, ?_, ?_, ?_, ?_, ?_, ?_⟩
  · simp [SessionManager.write, h]
  · simp [SessionManager.resize, h]
  · simp [SessionManager.get_screen, h]
  · simp [SessionManager.process, h]
  · simp [SessionManager.get_theme, h]
  · intro hs
    obtain ⟨t, ht⟩ := Option.isSome_iff_exists.mp hs
    simp [SessionManager.set_theme, ht, h]
  · intro hn
    simp [SessionManager.set_theme, hn]

/-- C3 witness: on an empty registry, `get_theme` and `set_theme` with the
recognized name `dark` both report `SessionNotFound`. -/
theorem manager_ops_missing_id_witness :
    SessionManager.get_theme { sessions := [] } "y" =
      Except.error (Error.SessionNotFound "y") ∧
    SessionManager.set_theme { sessions := [] } "y" "dark" =
      ({ sessions := [] }, [], Except.error (Error.SessionNotFound "y")) := by
  have h := manager_ops_missing_id toyVt { sessions := [] } "y" [104] 2 3 "dark" rfl
  exact ⟨h.2.2.2.2.1, h.2.2.2.2.2.1 rfl⟩

/-- C3 counterexample: `set_theme` against a missing id with an
unrecognized theme name returns `InvalidConfig`, not `SessionNotFound`. -/
theorem set_theme_unknown_theme_cex :
    (SessionManager.set_theme { sessions := [] } "x" "not-a-theme").2.2 =
      Except.error (Error.InvalidConfig "Unknown theme: not-a-theme") ∧
    (SessionManager.set_theme { sessions := [] } "x" "not-a-theme").2.2 ≠
      Except.error (Error.SessionNotFound "x") := by
  refine ⟨rfl, ?_⟩
  intro hc
  exact Error.noConfusion (Except.error.inj hc)

/-- C4: `create` with an explicit id already bound to a live session fails
with `SessionAlreadyExists`, leaves the registry (hence the bound session)
untouched, inserts nothing, and emits no event. -/
theorem create_existing_id (m : SessionManager) (config : SessionConfig)
    (x fresh : String) (now : Nat) (spawn_result : Except Error Pty)
    (hid : config.id = some x) (hmem : (m.sessions.lookup x).isSome = true) :
    SessionManager.create m config fresh now spawn_result =
      (m, [], Except.error (Error.SessionAlreadyExists x)) := by
  simp [SessionManager.create, hid, hmem]

/-- C4 witness: re-creating the live session `x` of `mgr0` fails with
`SessionAlreadyExists "x"` and changes nothing. -/
theorem create_existing_id_witness :
    SessionManager.create mgr0 { SessionConfig.default with id := some "x" }
        "f" 0 (Except.ok pty0) =
      (mgr0, [], Except.error (Error.SessionAlreadyExists "x")) :=
  create_existing_id mgr0 _ "x" "f" 0 (Except.ok pty0) rfl rfl

/-- C5: if the PTY-level spawn fails during session construction, `create`
returns that error, the registry is exactly as before, `count` is
unchanged, no session is registered under the (explicit or generated) id,
and no event is emitted. -/
theorem create_spawn_failure (m : SessionManager) (config : SessionConfig)
    (fresh : String) (now : Nat) (e : Error)
    (h : m.sessions.lookup (config.id.getD fresh) = none) :
    SessionManager.create m config fresh now (Except.error e) =
      (m, [], Except.error e) ∧
    (SessionManager.create m config fresh now (Except.error e)).1.count = m.count ∧
    (SessionManager.create m config fresh now (Except.error e)).1.sessions.lookup
      (config.id.getD fresh) = none := by
  have hmain : SessionManager.create m config fresh now (Except.error e) =
      (m, [], Except.error e) := by
    simp [SessionManager.create, Session.new, h]
  exact ⟨hmain, by rw [hmain], by rw [hmain]; exact h⟩

/-- C5 witness: a failing spawn on an empty registry leaves it empty and
returns the `PtyError`. -/
theorem create_spawn_failure_witness :
    SessionManager.create { sessions := [] } SessionConfig.default "f" 0
        (Except.error (Error.PtyError "spawn")) =
      ({ sessions := [] }, [], Except.error (Error.PtyError "spawn")) :=
  (create_spawn_failure { sessions := [] } SessionConfig.default "f" 0
    (Error.PtyError "spawn") rfl).1

/-- C7: when the PTY-level resize succeeds, `Session::resize` updates the
emulator geometry, propagates the size to the PTY, and emits exactly one
`TerminalResized` event — for every session state, so independently of any
content change. -/
theorem session_resize_emits (vt : VtOps) (s : Session) (cols rows : Nat)
    (h : s.pty.resize_ok = true) :
    (Session.resize vt s cols rows).2.1 =
      [TerminalEvent.TerminalResized s.id cols rows] ∧
    (Session.resize vt s cols rows).1.terminal.size = { cols := cols, rows := rows } ∧
    (Session.resize vt s cols rows).1.pty.size = { cols := cols, rows := rows } ∧
    (Session.resize vt s cols rows).2.2 = Except.ok () := by
  simp [Session.resize, Pty.resize, Terminal.resize, h]

/-- C7 witness: resizing `session0` to 2×3 emits `TerminalResized` and
updates both geometries. -/
theorem session_resize_emits_witness :
    (Session.resize toyVt session0 2 3).2.1 =
      [TerminalEvent.TerminalResized "x" 2 3] ∧
    (Session.resize toyVt session0 2 3).1.terminal.size = { cols := 2, rows := 3 } ∧
    (Session.resize toyVt session0 2 3).1.pty.size = { cols := 2, rows := 3 } ∧
    (Session.resize toyVt session0 2 3).2.2 = Except.ok () :=
  session_resize_emits toyVt session0 2 3 rfl

/-- C10: when the PTY-level resize fails, `Session::resize` returns a
`PtyError`, yet the emulator size has already been replaced (a subsequent
`get_screen` reports the new size), the PTY keeps its old state, and no
`TerminalResized` event is emitted. -/
theorem session_resize_pty_failure (vt : VtOps) (s : Session) (cols rows : Nat)
    (h : s.pty.resize_ok = false) :
    (Session.resize vt s cols rows).2.2 = Except.error (Error.PtyError "resize") ∧
    (Session.resize vt s cols rows).1.terminal.size = { cols := cols, rows := rows } ∧
    (Session.resize vt s cols rows).1.get_screen.size = { cols := cols, rows := rows } ∧
    (Session.resize vt s cols rows).1.pty = s.pty ∧
    (Session.resize vt s cols rows).2.1 = [] := by
  simp [Session.resize, Pty.resize, Terminal.resize, Session.get_screen,
    Terminal.get_screen, h]

/-- C10 witness: a failing PTY resize on `sessionBadPty` leaves the OS pty
at 1×1 while the emulator already reports 2×3, with no event. -/
theorem session_resize_pty_failure_witness :
    (Session.resize toyVt sessionBadPty 2 3).2.2 =
      Except.error (Error.PtyError "resize") ∧
    (Session.resize toyVt sessionBadPty 2 3).1.terminal.size =
      { cols := 2, rows := 3 } ∧
    (Session.resize toyVt sessionBadPty 2 3).1.get_screen.size =
      { cols := 2, rows := 3 } ∧
    (Session.resize toyVt sessionBadPty 2 3).1.pty = sessionBadPty.pty ∧
    (Session.resize toyVt sessionBadPty 2 3).2.1 = [] :=
  session_resize_pty_failure toyVt sessionBadPty 2 3 rfl

/-- C8: `Terminal::process` updates the stored title only on a non-empty
title report: an empty report leaves the previous title, the stored title
never goes from non-empty to empty, and the post-processing title is
either the prior one or the screen's reported one. -/
theorem process_title_policy (vt : VtOps) (t : Terminal) (data : List Nat) :
    ((vt.process t.parser data).screen.title = "" →
      (Terminal.process vt t data).1.title = t.title) ∧
    ((Terminal.process vt t data).1.title = "" → t.title = "") ∧
    ((Terminal.process vt t data).1.title = t.title ∨
      (Terminal.process vt t data).1.title = (vt.process t.parser data).screen.title) := by
  have hres : (Terminal.process vt t data).1.title =
      (if (vt.process t.parser data).screen.title.isEmpty then t.title
       else (vt.process t.parser data).screen.title) := by
    simp [Terminal.process]
  by_cases h : (vt.process t.parser data).screen.title.isEmpty = true
  · rw [hres, if_pos h]
    exact ⟨fun _ => rfl, fun h2 => h2, Or.inl rfl⟩
  · rw [hres, if_neg h]
    have hne : (vt.process t.parser data).screen.title ≠ "" := by
      simpa [String.isEmpty_iff] using h
    exact ⟨fun hemp => absurd hemp hne, fun h2 => absurd h2 hne, Or.inr rfl⟩

/-- C8 witness: processing a byte whose pass reports an empty title leaves
the stored title untouched. -/
theorem process_title_policy_witness :
    (toyVt.process (Terminal.new 1 1).parser [104]).screen.title = "" ∧
    (Terminal.process toyVt (Terminal.new 1 1) [104]).1.title =
      (Terminal.new 1 1).title :=
  ⟨rfl, (process_title_policy toyVt (Terminal.new 1 1) [104]).1 rfl⟩

/-- Helper: with no buffered PTY output, `process_output` returns nothing,
emits nothing, and leaves the session unchanged. -/
theorem process_output_empty_buffer (vt : VtOps) (s : Session)
    (h : s.pty.buffer = []) :
    Session.process_output vt s = (s, [], none) := by
  simp [Session.process_output, Pty.try_read, h]

/-- C2 (amended): if a `process` call leaves the PTY output queue empty
(in particular after it consumed the last buffered chunk), an immediately
following second call with no new bytes returns nothing, emits nothing and
changes nothing.  As originally stated the claim fails when more than one
chunk is already buffered: see the counterexample. -/
theorem process_output_drained_idempotent (vt : VtOps) (s : Session)
    (h : (Session.process_output vt s).1.pty.buffer = []) :
    Session.process_output vt (Session.process_output vt s).1 =
      ((Session.process_output vt s).1, [], none) :=
  process_output_empty_buffer vt _ h

/-- C2 witness: after processing the single buffered chunk of
`sessionOneChunk`, a second call returns nothing. -/
theorem process_output_drained_idempotent_witness :
    Session.process_output toyVt (Session.process_output toyVt sessionOneChunk).1 =
      ((Session.process_output toyVt sessionOneChunk).1, [], none) :=
  process_output_drained_idempotent toyVt sessionOneChunk rfl

/-- C2 counterexample: with two chunks buffered before the first call and
nothing arriving in between, both the first and the second `process` call
return a `ScreenUpdate`. -/
theorem process_output_second_call_cex :
    (Session.process_output toyVt session0).2.2.isSome = true ∧
    (Session.process_output toyVt
        (Session.process_output toyVt session0).1).2.2.isSome = true :=
  ⟨rfl, rfl⟩

/-- Helper: filtering out a key other than `a` does not change `lookup a`. -/
theorem lookup_filter_ne (l : List (String × Session)) (a b : String)
    (hne : a ≠ b) :
    (l.filter fun kv => kv.1 != b).lookup a = l.lookup a := by
  induction l with
  | nil => rfl
  | cons kv t ih =>
    rcases kv with ⟨k, v⟩
    by_cases hb : k = b
    · subst hb
      have h2 : (a == k) = false := by simp [hne]
      simp [List.filter_cons, List.lookup_cons, h2, ih]
    · by_cases ha : a = k
      · subst ha
        simp [List.filter_cons, List.lookup_cons, hb]
      · have h2 : (a == k) = false := by simp [ha]
        simp [List.filter_cons, List.lookup_cons, h2, ih, hb]

/-- Helper: `lookup` succeeds exactly on the keys of the list. -/
theorem lookup_isSome_iff (l : List (String × Session)) (a : String) :
    (l.lookup a).isSome = true ↔ a ∈ l.map Prod.fst := by
  induction l with
  | nil => simp [List.lookup]
  | cons kv t ih =>
    rcases kv with ⟨k, v⟩
    by_cases h : a = k
    · subst h
      simp [List.lookup_cons]
    · have h2 : (a == k) = false := by simp [h]
      simp [List.lookup_cons, h2, ih, h]

/-- Helper: in a list with duplicate-free keys, entries are determined by
their key. -/
theorem mem_eq_of_nodup_keys {l : List (String × Session)}
    (h : (l.map Prod.fst).Nodup) {kv kw : String × Session}
    (h1 : kv ∈ l) (h2 : kw ∈ l) (hk : kv.1 = kw.1) : kv = kw := by
  induction l with
  | nil => cases h1
  | cons x t ih =>
    rw [List.map_cons, List.nodup_cons] at h
    rcases List.mem_cons.mp h1 with rfl | h1t
    · rcases List.mem_cons.mp h2 with rfl | h2t
      · rfl
      · have hmem : kv.1 ∈ t.map Prod.fst := by
          rw [hk]
          exact List.mem_map_of_mem Prod.fst h2t
        exact absurd hmem h.1
    · rcases List.mem_cons.mp h2 with rfl | h2t
      · have hmem : kw.1 ∈ t.map Prod.fst := by
          rw [← hk]
          exact List.mem_map_of_mem Prod.fst h1t
        exact absurd hmem h.1
      · exact ih h.2 h1t h2t

/-- Helper: the removal loop of `cleanup_dead`, run over duplicate-free
ids that are all present, removes exactly those ids and appends one
`ProcessExit` event (exit code absent) per id, in order. -/
theorem cleanup_foldl_spec (ids : List String) :
    ∀ (sess : List (String × Session)) (evs : List TerminalEvent),
      ids.Nodup →
      (∀ id ∈ ids, (sess.lookup id).isSome = true) →
      ids.foldl
        (fun (acc : SessionManager × List TerminalEvent) id =>
          match acc.1.remove id with
          | (some _, m') => (m', acc.2 ++ [TerminalEvent.ProcessExit id none])
          | (none, _) => acc)
        (⟨sess⟩, evs) =
      (⟨sess.filter fun kv => !(ids.contains kv.1)⟩,
       evs ++ ids.map fun id => TerminalEvent.ProcessExit id none) := by
  induction ids with
  | nil =>
    intro sess evs _ _
    simp
  | cons id₀ rest ih =>
    intro sess evs hnd hsome
    rw [List.foldl_cons]
    obtain ⟨s₀, hs₀⟩ := Option.isSome_iff_exists.mp
      (hsome id₀ (List.mem_cons_self id₀ rest))
    have hstep : SessionManager.remove ⟨sess⟩ id₀ =
        (some s₀, ⟨sess.filter fun kv => kv.1 != id₀⟩) := by
      simp [SessionManager.remove, hs₀]
    rw [List.nodup_cons] at hnd
    have hrest : ∀ id ∈ rest,
        (((sess.filter fun kv => kv.1 != id₀).lookup id)).isSome = true := by
      intro id hid
      have hne : id ≠ id₀ := fun hc => hnd.1 (hc ▸ hid)
      rw [lookup_filter_ne _ _ _ hne]
      exact hsome id (List.mem_cons_of_mem id₀ hid)
    have := ih (sess.filter fun kv => kv.1 != id₀)
      (evs ++ [TerminalEvent.ProcessExit id₀ none]) hnd.2 hrest
    simp only [hstep, this]
    rw [Prod.mk.injEq]
    constructor
    · rw [List.filter_filter]
      congr 1
      apply List.filter_congr
      intro kv _
      rw [List.contains_cons, Bool.not_or]
      show (!rest.contains kv.1 && !(kv.1 == id₀)) =
        (!(kv.1 == id₀) && !rest.contains kv.1)
      exact Bool.and_comm _ _
    · simp

/-- Helper: when every session is alive, `cleanup_dead` is a no-op that
emits nothing. -/
theorem cleanup_dead_no_dead (m' : SessionManager)
    (h : (m'.sessions.filter fun kv => !kv.2.is_alive) = []) :
    SessionManager.cleanup_dead m' = (m', [], []) := by
  simp [SessionManager.cleanup_dead, h]

/-- C6: on a registry with duplicate-free keys, `cleanup_dead` removes
exactly the sessions whose PTY reports death, emits exactly one
`ProcessExit` event (exit code absent) per removed session, and an
immediately following second call removes nothing and emits nothing. -/
theorem cleanup_dead_spec (m : SessionManager)
    (hnd : (m.sessions.map Prod.fst).Nodup) :
    (SessionManager.cleanup_dead m).1.sessions =
      (m.sessions.filter fun kv => kv.2.is_alive) ∧
    (SessionManager.cleanup_dead m).2.1 =
      ((m.sessions.filter fun kv => !kv.2.is_alive).map Prod.fst).map
        (fun id => TerminalEvent.ProcessExit id none) ∧
    SessionManager.cleanup_dead (SessionManager.cleanup_dead m).1 =
      ((SessionManager.cleanup_dead m).1, [], []) := by
  have hdnd : ((m.sessions.filter fun kv => !kv.2.is_alive).map Prod.fst).Nodup :=
    ((List.filter_sublist m.sessions).map Prod.fst).nodup hnd
  have hdsome : ∀ id ∈ (m.sessions.filter fun kv => !kv.2.is_alive).map Prod.fst,
      (m.sessions.lookup id).isSome = true := by
    intro id hid
    rw [lookup_isSome_iff]
    exact ((List.filter_sublist m.sessions).map Prod.fst).mem hid
  have hfold := cleanup_foldl_spec
    ((m.sessions.filter fun kv => !kv.2.is_alive).map Prod.fst)
    m.sessions [] hdnd hdsome
  have hsess : (SessionManager.cleanup_dead m).1.sessions =
      m.sessions.filter fun kv =>
        !(((m.sessions.filter fun kw => !kw.2.is_alive).map Prod.fst).contains kv.1) := by
    simp only [SessionManager.cleanup_dead, hfold]
  have hcontains : ∀ kv ∈ m.sessions,
      (!(((m.sessions.filter fun kw => !kw.2.is_alive).map Prod.fst).contains kv.1)) =
        kv.2.is_alive := by
    intro kv hkv
    cases halive : kv.2.is_alive
    · have hmem : kv.1 ∈ (m.sessions.filter fun kw => !kw.2.is_alive).map Prod.fst := by
        apply List.mem_map_of_mem Prod.fst
        rw [List.mem_filter]
        exact ⟨hkv, by rw [halive]; rfl⟩
      have hc : ((m.sessions.filter fun kw => !kw.2.is_alive).map Prod.fst).contains kv.1
          = true := List.elem_iff.mpr hmem
      rw [hc]
      rfl
    · have hnmem : kv.1 ∉ (m.sessions.filter fun kw => !kw.2.is_alive).map Prod.fst := by
        intro hc
        obtain ⟨kw, hkwmem, hkweq⟩ := List.mem_map.mp hc
        rw [List.mem_filter] at hkwmem
        have hkk : kv = kw := mem_eq_of_nodup_keys hnd hkv hkwmem.1 hkweq.symm
        rw [← hkk, halive] at hkwmem
        simp at hkwmem
      have hc : ((m.sessions.filter fun kw => !kw.2.is_alive).map Prod.fst).contains kv.1
          = false := by
        cases hcc : ((m.sessions.filter fun kw => !kw.2.is_alive).map Prod.fst).contains kv.1
        · rfl
        · exact absurd (List.elem_iff.mp hcc) hnmem
      rw [hc]
      rfl
  have h1 : (SessionManager.cleanup_dead m).1.sessions =
      (m.sessions.filter fun kv => kv.2.is_alive) := by
    rw [hsess]
    exact List.filter_congr hcontains
  have hnodead : ((SessionManager.cleanup_dead m).1.sessions.filter
      fun kv => !kv.2.is_alive) = [] := by
    rw [h1, List.filter_filter]
    have hpt : ∀ kv ∈ m.sessions,
        ((!kv.2.is_alive) && kv.2.is_alive) = (fun _ => false) kv := by
      intro kv _
      exact Bool.not_and_self kv.2.is_alive
    rw [List.filter_congr hpt, List.filter_false]
  refine ⟨h1, ?_, ?_⟩
  · simp only [SessionManager.cleanup_dead, hfold]
    simp
  · exact cleanup_dead_no_dead _ hnodead

/-- C6 witness: on `mgr0` (live `x`, dead `d`) the first `cleanup_dead`
removes exactly `d` with one `ProcessExit`, and the second call is a
no-op. -/
theorem cleanup_dead_spec_witness :
    (SessionManager.cleanup_dead mgr0).1.sessions =
      (mgr0.sessions.filter fun kv => kv.2.is_alive) ∧
    (SessionManager.cleanup_dead mgr0).2.1 =
      ((mgr0.sessions.filter fun kv => !kv.2.is_alive).map Prod.fst).map
        (fun id => TerminalEvent.ProcessExit id none) ∧
    SessionManager.cleanup_dead (SessionManager.cleanup_dead mgr0).1 =
      ((SessionManager.cleanup_dead mgr0).1, [], []) :=
  cleanup_dead_spec mgr0 (by decide)

/-- Helper: a `filterMap` whose function always yields `some` is a `map`. -/
theorem filterMap_eq_map_of_some {α β : Type} {f : α → Option β} {g : α → β}
    {l : List α} (h : ∀ a ∈ l, f a = some (g a)) : l.filterMap f = l.map g := by
  induction l with
  | nil => rfl
  | cons a t ih =>
    simp only [List.filterMap_cons, h a (List.mem_cons_self a t), List.map_cons]
    rw [ih fun x hx => h x (List.mem_cons_of_mem a hx)]

/-- Helper: on a well-formed grid (every in-bounds coordinate holds a
cell), the source's change computation is exactly the spec's full-frame
enumeration. -/
theorem compute_changes_eq_spec (size : Size) (screen : VtScreen)
    (hwf : ∀ r < size.rows, ∀ c < size.cols, (screen.cell r c).isSome = true) :
    Terminal.compute_changes size screen = spec_full_frame size screen := by
  unfold Terminal.compute_changes spec_full_frame
  apply List.flatMap_congr
  intro row hrow
  apply filterMap_eq_map_of_some
  intro col hcol
  obtain ⟨c, hc⟩ := Option.isSome_iff_exists.mp
    (hwf row (List.mem_range.mp hrow) col (List.mem_range.mp hcol))
  simp [hc, Terminal.cell_at]

/-- Helper: the full-frame enumeration has one entry per visible cell. -/
theorem spec_full_frame_length (size : Size) (screen : VtScreen) :
    (spec_full_frame size screen).length = size.rows * size.cols := by
  simp [spec_full_frame, List.length_flatMap, Function.comp_def, List.map_const',
    List.sum_replicate, smul_eq_mul]

/-- C1: in a processing pass that consumes a buffered chunk and in which
the emulator reports a content change (on a well-formed, non-empty grid),
`process_output` returns a `ScreenUpdate` whose change list enumerates
every cell of the visible grid in row-major order — `rows * cols` entries
— and whose cursor is read from the same post-processing parser state as
the cells. -/
theorem process_output_full_frame (vt : VtOps) (s : Session)
    (data : List Nat) (rest : List (List Nat))
    (hbuf : s.pty.buffer = data :: rest)
    (hchanged : s.terminal.prev_contents ≠
      some (vt.process s.terminal.parser data).screen.contents)
    (hwf : ∀ r < s.terminal.size.rows, ∀ c < s.terminal.size.cols,
      ((vt.process s.terminal.parser data).screen.cell r c).isSome = true)
    (hpos : 0 < s.terminal.size.rows * s.terminal.size.cols) :
    ∃ u, (Session.process_output vt s).2.2 = some u ∧
      u.changes = spec_full_frame s.terminal.size
        (vt.process s.terminal.parser data).screen ∧
      u.changes.length = s.terminal.size.rows * s.terminal.size.cols ∧
      u.cursor = get_cursor_from_screen (vt.process s.terminal.parser data).screen ∧
      u.session_id = s.id := by
  have hch : (Terminal.process vt s.terminal data).2 =
      spec_full_frame s.terminal.size (vt.process s.terminal.parser data).screen := by
    rw [show (Terminal.process vt s.terminal data).2 =
        Terminal.compute_changes s.terminal.size
          (vt.process s.terminal.parser data).screen from by
      simp [Terminal.process, hchanged]]
    exact compute_changes_eq_spec _ _ hwf
  have hlen : (Terminal.process vt s.terminal data).2.length =
      s.terminal.size.rows * s.terminal.size.cols := by
    rw [hch, spec_full_frame_length]
  have hne : (Terminal.process vt s.terminal data).2.isEmpty = false := by
    cases hE : (Terminal.process vt s.terminal data).2.isEmpty
    · rfl
    · rw [List.isEmpty_iff.mp hE] at hlen
      simp only [List.length_nil] at hlen
      omega
  have hcur : (Terminal.process vt s.terminal data).1.get_cursor =
      get_cursor_from_screen (vt.process s.terminal.parser data).screen := by
    simp [Terminal.process, Terminal.get_cursor]
  have hout : (Session.process_output vt s).2.2 =
      some { session_id := s.id
             changes := (Terminal.process vt s.terminal data).2
             cursor := (Terminal.process vt s.terminal data).1.get_cursor
             title := some (Terminal.process vt s.terminal data).1.title } := by
    simp only [Session.process_output, Pty.try_read, hbuf, hne]
    rfl
  exact ⟨_, hout, hch, hlen, hcur, rfl⟩

/-- C1 witness: on `session0` (1×1 grid, buffered chunk `[104]`, blank
previous fingerprint) the pass yields a one-entry full-frame update. -/
theorem process_output_full_frame_witness :
    ∃ u, (Session.process_output toyVt session0).2.2 = some u ∧
      u.changes = spec_full_frame session0.terminal.size
        (toyVt.process session0.terminal.parser [104]).screen ∧
      u.changes.length = session0.terminal.size.rows * session0.terminal.size.cols ∧
      u.cursor = get_cursor_from_screen
        (toyVt.process session0.terminal.parser [104]).screen ∧
      u.session_id = session0.id :=
  process_output_full_frame toyVt session0 [104] [[105]] rfl (by decide)
    (by decide) (by decide)

end TermPlugin
